import Mathlib

/-!
Verification of the VCS abstraction layer of bump2version
(`src/bumpversion/vcs.py`).

The Python module drives external VCS executables.  We shallowly embed it:
every subprocess interaction becomes an explicit parameter (the captured
output, or the exception the call raised), Python strings and bytes become
`List Char`, Python dictionaries of environment variables become lookup
functions, and Python exceptions become an `Except PyExc` result.  Each
definition below is translated from the source function it names.
-/

/-- Conversion from a Lean string literal to the character-list
representation used for Python strings and bytes throughout. -/
def chars (s : String) : List Char := s.data

/-- Decidable equality for `Except`, used to evaluate concrete runs. -/
instance {ε α : Type} [DecidableEq ε] [DecidableEq α] : DecidableEq (Except ε α) := fun
  | .ok a, .ok b =>
      if h : a = b then .isTrue (by rw [h])
      else .isFalse (by intro he; cases he; exact h rfl)
  | .ok _, .error _ => .isFalse (by intro h; cases h)
  | .error _, .ok _ => .isFalse (by intro h; cases h)
  | .error a, .error b =>
      if h : a = b then .isTrue (by rw [h])
      else .isFalse (by intro he; cases he; exact h rfl)

/-- Python exceptions that the embedded code can raise. -/
inductive PyExc where
  | osError (errno : Int)
  | keyError (key : List Char)
  | valueError
  | indexError
  | unboundLocalError
  | workingDirectoryIsDirty (details : List Char)
  | calledProcessError (returncode : Int) (output : List Char)
deriving DecidableEq, Repr

/-- Whitespace characters stripped by the Python `str.strip()` method. -/
def isPySpace (c : Char) : Bool :=
  c = ' ' || c = '\t' || c = '\n' || c = '\r' || c = '\x0b' || c = '\x0c'

/-- Embedding of the Python `str.strip()` / `bytes.strip()` method with no
argument: remove leading and trailing whitespace. -/
def pyStrip (s : List Char) : List Char :=
  ((s.dropWhile isPySpace).reverse.dropWhile isPySpace).reverse

/-- Helper for `pySplit`: returns the chunk before the first separator and
the list of the remaining chunks. -/
def pySplitAux (sep : Char) : List Char → List Char × List (List Char)
  | [] => ([], [])
  | c :: rest =>
      let r := pySplitAux sep rest
      if c = sep then ([], r.1 :: r.2) else (c :: r.1, r.2)

/-- Embedding of the Python `str.split(sep)` method for a one-character
separator: split at every occurrence, keeping empty chunks, so the result
always has one more chunk than there are separators. -/
def pySplit (sep : Char) (s : List Char) : List (List Char) :=
  ((pySplitAux sep s).1) :: (pySplitAux sep s).2

/-- Helper for `pySplitLines`, accumulating the current (reversed) line. -/
def pySplitLinesAux : List Char → List Char → List (List Char)
  | [], acc => if acc.isEmpty then [] else [acc.reverse]
  | '\r' :: '\n' :: t, acc => acc.reverse :: pySplitLinesAux t []
  | '\n' :: t, acc => acc.reverse :: pySplitLinesAux t []
  | '\r' :: t, acc => acc.reverse :: pySplitLinesAux t []
  | c :: t, acc => pySplitLinesAux t (c :: acc)

/-- Embedding of the Python `bytes.splitlines()` method: break at line
boundaries without producing a trailing empty line. -/
def pySplitLines (s : List Char) : List (List Char) :=
  pySplitLinesAux s []

/-- Numeric value of a list of decimal digits. -/
def digitsVal (ds : List Char) : Nat :=
  ds.foldl (fun a c => a * 10 + (c.toNat - 48)) 0

/-- Embedding of the Python `int(string)` constructor on its common core:
optional surrounding whitespace, an optional sign, then decimal digits;
`none` models the `ValueError` raised on anything else.  (Underscore digit
grouping is not modelled; no input in this module uses it.) -/
def pyInt? (s : List Char) : Option Int :=
  let t := pyStrip s
  let signAndDigits : Int × List Char :=
    match t with
    | '+' :: r => (1, r)
    | '-' :: r => (-1, r)
    | r => (1, r)
  if signAndDigits.2 ≠ [] ∧ signAndDigits.2.all Char.isDigit then
    some (signAndDigits.1 * (digitsVal signAndDigits.2 : Int))
  else
    none

/-- Result of the latest-tag query, `TagInfo` in the data model: a mapping
with four optional keys.  A field that is `none` is absent from the
mapping; the empty mapping has every field `none`. -/
structure TagInfo where
  dirty : Option Bool := none
  commit_sha : Option (List Char) := none
  distance_to_latest_tag : Option Int := none
  current_version : Option (List Char) := none
deriving DecidableEq, Repr

/-- Parsing phase of `Git.latest_tag_info` (vcs.py lines 110-120), applied
to the decoded output of the `git describe` command.  The source splits on
each dash, pops a trailing `dirty` marker, pops the commit id (stripping
leading `g` characters), pops the integer distance, and joins the rest as
the version (stripping leading `v` characters).  A pop from an exhausted
list raises `IndexError` and a non-integer distance raises `ValueError`,
exactly as the Python `list.pop` and `int` would. -/
def parseDescribe (out : List Char) : Except PyExc TagInfo :=
  let d0 := pySplit '-' out
  let dirtyAndRest : Bool × List (List Char) :=
    match d0.getLast? with
    | some last => if pyStrip last = chars "dirty" then (true, d0.dropLast) else (false, d0)
    | none => (false, d0)
  match dirtyAndRest.2.getLast? with
  | none => .error .indexError
  | some shaTok =>
      let d2 := dirtyAndRest.2.dropLast
      match d2.getLast? with
      | none => .error .indexError
      | some distTok =>
          let d3 := d2.dropLast
          match pyInt? distTok with
          | none => .error .valueError
          | some dist =>
              .ok { dirty := if dirtyAndRest.1 then some true else none,
                    commit_sha := some (shaTok.dropWhile (· = 'g')),
                    distance_to_latest_tag := some dist,
                    current_version :=
                      some ((List.intercalate ['-'] d3).dropWhile (· = 'v')) }

/-- Embedding of `Git.latest_tag_info` (vcs.py lines 83-120).  The two
subprocess results (for `git update-index --refresh` and for
`git describe ...`) are passed in; the `try` block catches only
`CalledProcessError`, turning it into an empty mapping, while any other
exception from `check_output` propagates. -/
def Git.latest_tag_info (updateIndex describe : Except PyExc (List Char)) :
    Except PyExc TagInfo :=
  match updateIndex with
  | .error (.calledProcessError _ _) => .ok {}
  | .error e => .error e
  | .ok _ =>
      match describe with
      | .error (.calledProcessError _ _) => .ok {}
      | .error e => .error e
      | .ok out => parseDescribe out

/-- Embedding of `Mercurial.latest_tag_info` (vcs.py lines 147-149): it
unconditionally returns the empty mapping. -/
def Mercurial.latest_tag_info : TagInfo := {}

/-- Outcome of the Python `subprocess.call` used by the usability probe:
either the child process ran and exited with a code, or the call raised an
`OSError` with the given errno (for example because the executable is
absent from the environment). -/
inductive CallOutcome where
  | exit (code : Int)
  | osError (errno : Int)
deriving DecidableEq, Repr

/-- The `errno.ENOENT` constant (file not found). -/
def ENOENT : Int := 2

/-- The `errno.EACCES` constant (permission denied). -/
def EACCES : Int := 13

/-- The `errno.ENOTDIR` constant (not a directory). -/
def ENOTDIR : Int := 20

/-- Embedding of `BaseVCS.is_usable` (vcs.py lines 44-58), shared by the
Git and Mercurial backends: the probe command exiting 0 means usable; an
`OSError` with errno `ENOENT`, `EACCES` or `ENOTDIR` yields `False`; any
other `OSError` is re-raised. -/
def BaseVCS.is_usable (call : CallOutcome) : Except PyExc Bool :=
  match call with
  | .exit code => .ok (code == 0)
  | .osError e =>
      if e = ENOENT ∨ e = EACCES ∨ e = ENOTDIR then .ok false
      else .error (.osError e)

/-- The `Git._TEST_USABLE_COMMAND` class attribute. -/
def Git._TEST_USABLE_COMMAND : List (List Char) :=
  [chars "git", chars "rev-parse", chars "--git-dir"]

/-- The `Git._COMMIT_COMMAND` class attribute. -/
def Git._COMMIT_COMMAND : List (List Char) :=
  [chars "git", chars "commit", chars "-F"]

/-- The `Mercurial._TEST_USABLE_COMMAND` class attribute. -/
def Mercurial._TEST_USABLE_COMMAND : List (List Char) :=
  [chars "hg", chars "root"]

/-- The `Mercurial._COMMIT_COMMAND` class attribute. -/
def Mercurial._COMMIT_COMMAND : List (List Char) :=
  [chars "hg", chars "commit", chars "--logfile"]

/-- The `SVN._COMMIT_COMMAND` class attribute. -/
def SVN._COMMIT_COMMAND : List (List Char) :=
  [chars "svn", chars "commit", chars "--file"]

/-- A status line whose stripped form begins with the two question marks
denotes an untracked file in porcelain style status output. -/
def untrackedMarker : List Char := chars "??"

/-- Embedding of `Git.assert_nondirty` (vcs.py lines 66-81) applied to the
captured output of `git status --porcelain`: strip each line, drop lines
that begin with the untracked marker, and raise
`WorkingDirectoryIsDirtyException` when any line remains. -/
def Git.assert_nondirty (statusOutput : List Char) : Except PyExc Unit :=
  let lines := ((pySplitLines statusOutput).map pyStrip).filter
    (fun l => !(untrackedMarker.isPrefixOf l))
  if lines.isEmpty then .ok ()
  else .error (.workingDirectoryIsDirty
    (chars "Git working directory is not clean:\n" ++ List.intercalate ['\n'] lines))

/-- Embedding of `Mercurial.assert_nondirty` (vcs.py lines 151-164) applied
to the captured output of `hg status -mard`: same filtering as the Git
variant. -/
def Mercurial.assert_nondirty (statusOutput : List Char) : Except PyExc Unit :=
  let lines := ((pySplitLines statusOutput).map pyStrip).filter
    (fun l => !(untrackedMarker.isPrefixOf l))
  if lines.isEmpty then .ok ()
  else .error (.workingDirectoryIsDirty
    (chars "Mercurial working directory is not clean:\n" ++ List.intercalate ['\n'] lines))

/-- Embedding of `SVN.assert_nondirty` (vcs.py lines 222-228) applied to
the captured output of `svn status -q`: any truthy (non-empty) output
raises.  (The Python message interpolates the repr of the bytes object;
the detail here is the raw output, which the claims do not inspect.) -/
def SVN.assert_nondirty (statusOutput : List Char) : Except PyExc Unit :=
  if statusOutput.isEmpty then .ok ()
  else .error (.workingDirectoryIsDirty
    (chars "SVN working directory is not clean:\n" ++ statusOutput))

/-- Whether `pat` occurs in `s` starting at position `i`. -/
def occursAt (pat s : List Char) (i : Nat) : Bool :=
  pat.isPrefixOf (s.drop i)

/-- Embedding of the Python `str.rindex(sub)` method, as an `Option`: the
largest index at which `sub` occurs, `none` modelling the `ValueError`
that the `except ValueError: continue` in `repo_urls` absorbs. -/
def pyRindex? (s pat : List Char) : Option Nat :=
  ((List.range (s.length + 1)).filter (fun i => occursAt pat s i)).getLast?

/-- Embedding of the Python slice `s[:j]` for a possibly negative `j`. -/
def pySliceTo (s : List Char) (j : Int) : List Char :=
  if j < 0 then s.take (((s.length : Int) + j).toNat) else s.take j.toNat

/-- The `RepoUrls` named tuple of vcs.py line 182. -/
structure RepoUrls where
  base : Option (List Char)
  root : Option (List Char)
  current : Option (List Char)
deriving DecidableEq, Repr

/-- The folder markers the `SVN.repo_urls` loop iterates over, in source
order (vcs.py line 203). -/
def svnLayoutFolders : List (List Char) :=
  [chars "branch", chars "branches", chars "trunk"]

/-- Loop body of `SVN.repo_urls` (vcs.py lines 198-212) on an already
obtained current URL: try each folder marker in order, take the rightmost
occurrence of the first marker that occurs at all, and derive `base` as
the slice up to one before that occurrence and `root` as the slice up to
its end; with no marker (or no URL) both stay `None`. -/
def repoUrlsFromUrl : Option (List Char) → RepoUrls
  | none => ⟨none, none, none⟩
  | some url =>
      match svnLayoutFolders.findSome?
          (fun m => (pyRindex? url m).map (fun i => (m, i))) with
      | none => ⟨none, none, some url⟩
      | some (m, idx) =>
          ⟨some (pySliceTo url ((idx : Int) - 1)),
           some (url.take (idx + m.length)), some url⟩

/-- Characters of the set the source strips with `line.lstrip('URL: ')`:
the Python `lstrip` argument is a character set, not a literal. -/
def urlStripSet (c : Char) : Bool :=
  c = 'U' || c = 'R' || c = 'L' || c = ':' || c = ' '

/-- Embedding of `SVN.current_url` (vcs.py lines 188-196) applied to the
result of running `svn info`: an exception from `check_output` (there is
no handler) propagates; otherwise split the decoded output on newlines,
return the first line that begins with the URL marker, left-stripped of
the characters of the set, and `None` when no line matches. -/
def SVN.current_url (svnInfo : Except PyExc (List Char)) :
    Except PyExc (Option (List Char)) :=
  match svnInfo with
  | .error e => .error e
  | .ok out =>
      .ok ((((pySplit '\n' out).find? (fun l => (chars "URL:").isPrefixOf l)).map
        (fun l => l.dropWhile urlStripSet)))

/-- Embedding of `SVN.repo_urls` (vcs.py lines 198-212): the current URL
query followed by the marker loop. -/
def SVN.repo_urls (svnInfo : Except PyExc (List Char)) : Except PyExc RepoUrls :=
  (SVN.current_url svnInfo).map repoUrlsFromUrl

/-- Truthiness of an optional string under the Python `bool()` builtin:
`None` and the empty string are falsy. -/
def pyTruthy : Option (List Char) → Bool
  | none => false
  | some s => !s.isEmpty

/-- Embedding of `SVN.is_usable` (vcs.py lines 214-216):
`bool(cls.repo_urls().base)`.  Any exception raised while querying the
working copy URL propagates unhandled. -/
def SVN.is_usable (svnInfo : Except PyExc (List Char)) : Except PyExc Bool :=
  (SVN.repo_urls svnInfo).map (fun r => pyTruthy r.base)

/-- Embedding of `SVN.latest_tag_info` (vcs.py lines 218-220): it
unconditionally returns the empty mapping. -/
def SVN.latest_tag_info : TagInfo := {}

/-- Modelled from the spec for refinement comparison only (section 4.5
gives no code beyond what vcs.py has; this renders the words "locate the
rightmost occurrence of any of a fixed set of layout markers"): among all
occurrences of all markers, the one with the greatest start position,
returned as (start, marker length). -/
def specRightmostMarker (url : List Char) : Option (Nat × Nat) :=
  (svnLayoutFolders.filterMap
    (fun m => (pyRindex? url m).map (fun i => (i, m.length)))).foldl
    (fun acc p =>
      match acc with
      | none => some p
      | some q => if q.1 < p.1 then some p else some q) none

/-- Environment mapping (a Python dictionary of environment variables),
embedded as a lookup function. -/
def Env : Type := List Char → Option (List Char)

/-- Assignment `env[k] = v` on an environment dictionary. -/
def setEnv (env : Env) (k v : List Char) : Env :=
  fun q => if q = k then some v else env q

/-- The all-absent environment, used for concrete runs. -/
def emptyEnv : Env := fun _ => none

/-- Key construction `str("BUMPVERSION_" + key.upper())` of vcs.py
line 30. -/
def bumpEnvKey (key : List Char) : List Char :=
  chars "BUMPVERSION_" ++ key.map Char.toUpper

/-- The caller supplied context mapping, restricted to the two keys the
commit code reads; a `none` field models an absent key, on which the
Python subscript raises `KeyError`. -/
structure CommitContext where
  current_version : Option (List Char) := none
  new_version : Option (List Char) := none
deriving Repr

/-- Observable outcome of one `commit` call: what it raised (if
anything), whether the transient message file was deleted, the command
line and environment of the subprocess invocation when one was attempted,
and the caller environment after the call (the source mutates only the
`os.environ.copy()`, never `os.environ` itself). -/
structure CommitOutcome where
  raised : Option PyExc
  tempFileContent : List Char
  tempFileDeleted : Bool
  invoked : Option (List (List Char) × Env)
  osEnvAfter : Env

/-- Embedding of `BaseVCS.commit` (vcs.py lines 22-42).  The transient
file (named `tmpName`) is created and the message written before anything
else.  The environment copy is then populated: `HGENCODING` is forced to
utf-8 unconditionally, and the two `BUMPVERSION_*` keys are read from the
context, raising `KeyError` on an absent key — this happens before the
`try`, so neither the subprocess invocation nor the `finally` deletion is
reached on that path.  Inside the `try`, a `CalledProcessError` is logged
and re-raised and any other exception propagates; the `finally` clause
deletes the file on all of those paths. -/
def BaseVCS.commit (commitCommand : List (List Char)) (osEnv : Env)
    (tmpName message : List Char) (context : CommitContext)
    (extraArgs : Option (List (List Char)))
    (subproc : Except PyExc (List Char)) : CommitOutcome :=
  let extra := extraArgs.getD []
  match context.current_version with
  | none =>
      { raised := some (.keyError (chars "current_version")),
        tempFileContent := message,
        tempFileDeleted := false, invoked := none, osEnvAfter := osEnv }
  | some cv =>
      match context.new_version with
      | none =>
          { raised := some (.keyError (chars "new_version")),
            tempFileContent := message,
            tempFileDeleted := false, invoked := none, osEnvAfter := osEnv }
      | some nv =>
          let env :=
            setEnv (setEnv (setEnv osEnv (chars "HGENCODING") (chars "utf-8"))
              (bumpEnvKey (chars "current_version")) cv)
              (bumpEnvKey (chars "new_version")) nv
          let cmd := commitCommand ++ [tmpName] ++ extra
          match subproc with
          | .ok _ =>
              { raised := none, tempFileContent := message, tempFileDeleted := true,
                invoked := some (cmd, env), osEnvAfter := osEnv }
          | .error e =>
              { raised := some e, tempFileContent := message, tempFileDeleted := true,
                invoked := some (cmd, env), osEnvAfter := osEnv }

/-- The three concrete backend classes. -/
inductive Backend where
  | git
  | mercurial
  | svn
deriving DecidableEq, Repr

/-- The `_COMMIT_COMMAND` class attribute of each backend. -/
def Backend.commitCommandOf : Backend → List (List Char)
  | .git => Git._COMMIT_COMMAND
  | .mercurial => Mercurial._COMMIT_COMMAND
  | .svn => SVN._COMMIT_COMMAND

/-- The `commit` classmethod as each backend inherits it from `BaseVCS`,
with the class `_COMMIT_COMMAND` substituted. -/
def Backend.commit (b : Backend) (osEnv : Env) (tmpName message : List Char)
    (context : CommitContext) (extraArgs : Option (List (List Char)))
    (subproc : Except PyExc (List Char)) : CommitOutcome :=
  BaseVCS.commit b.commitCommandOf osEnv tmpName message context extraArgs subproc

/-- Observable outcome of one `SVN.add_path` call: what it raised, the
class level `_COMMIT_COMMAND` template after the call, and the external
commands it invoked. -/
structure AddPathOutcome where
  raised : Option PyExc
  templateAfter : List (List Char)
  invokedCommands : List (List (List Char))

/-- Embedding of `SVN.add_path` (vcs.py lines 230-232).  The body is the
single statement
`_COMMIT_COMMAND = _COMMIT_COMMAND[:-1] + [path] + _COMMIT_COMMAND[-1]`.
Under Python scoping rules the assignment makes `_COMMIT_COMMAND` a local
variable of the function, so the reads on the right hand side refer to
the still unbound local, not to the class attribute, and evaluation stops
with `UnboundLocalError` before any slicing, any subprocess invocation,
or any write to the class attribute.  (Had the right hand side resolved
to the class attribute, `+ _COMMIT_COMMAND[-1]` would still be a
list-plus-string `TypeError`; no reading of the statement stages the
path.) -/
def SVN.add_path (template : List (List Char)) (_path : List Char) : AddPathOutcome :=
  { raised := some .unboundLocalError,
    templateAfter := template,
    invokedCommands := [] }

/-- Hexadecimal digit predicate (the Lean core of this toolchain has no
`Char.isHexDigit`). -/
def isHexDigitChar (c : Char) : Bool :=
  c.isDigit || ('a' ≤ c && c ≤ 'f') || ('A' ≤ c && c ≤ 'F')

lemma pySplitAux_not_mem {sep : Char} {a : List Char} (b : List Char)
    (h : sep ∉ a) :
    pySplitAux sep (a ++ b) = (a ++ (pySplitAux sep b).1, (pySplitAux sep b).2) := by
  induction a with
  | nil => simp
  | cons c a ih =>
      have hc : c ≠ sep := fun hcs => h (hcs ▸ List.mem_cons_self c a)
      have ha : sep ∉ a := fun hm => h (List.mem_cons_of_mem c hm)
      simp [pySplitAux, ih ha, hc]

lemma pySplitAux_sep_cons (sep : Char) (b : List Char) :
    pySplitAux sep (sep :: b) =
      ([], (pySplitAux sep b).1 :: (pySplitAux sep b).2) := by
  simp [pySplitAux]

lemma pySplit_append_sep {sep : Char} {a : List Char} (b : List Char)
    (h : sep ∉ a) :
    pySplit sep (a ++ (sep :: b)) = a :: pySplit sep b := by
  have h2 := @pySplitAux_not_mem sep a (sep :: b) h
  simp only [pySplitAux_sep_cons] at h2
  simp [pySplit, h2]

lemma pySplit_not_mem {sep : Char} {a : List Char} (h : sep ∉ a) :
    pySplit sep a = [a] := by
  have h2 := @pySplitAux_not_mem sep a [] h
  simp only [pySplitAux, List.append_nil] at h2
  simp [pySplit, h2]

lemma dropWhile_of_head_not {p : Char → Bool} {l : List Char}
    (h : ∀ c, l.head? = some c → p c = false) : l.dropWhile p = l := by
  cases l with
  | nil => rfl
  | cons c t => simp [List.dropWhile, h c rfl]

lemma hexDigit_ne_g {c : Char} (h : isHexDigitChar c = true) : (c = 'g') = False := by
  simp only [eq_iff_iff, iff_false]
  intro hc
  subst hc
  simp [isHexDigitChar, Char.isDigit] at h

lemma hexDigit_not_dash {sha : List Char} (h : sha.all isHexDigitChar = true) :
    '-' ∉ sha := by
  intro hm
  have hd := (List.all_eq_true.mp h) '-' hm
  simp [isHexDigitChar, Char.isDigit] at hd

lemma dropWhile_g_of_hex {sha : List Char} (h : sha.all isHexDigitChar = true) :
    sha.dropWhile (· = 'g') = sha := by
  apply dropWhile_of_head_not
  intro c hc
  cases sha with
  | nil => simp at hc
  | cons d t =>
      have hd : isHexDigitChar d = true :=
        List.all_eq_true.mp h d (List.mem_cons_self d t)
      simp only [List.head?, Option.some.injEq] at hc
      cases hc
      simp [hexDigit_ne_g hd]

lemma intercalate_singleton (sep a : List Char) :
    List.intercalate sep [a] = a := by
  simp [List.intercalate, List.intersperse]

/-- Evaluation of the describe parser on a four-chunk string whose last
chunk strips to the dirty marker. -/
lemma parseDescribe_dirty (a b c d : List Char) (n : Int)
    (ha : '-' ∉ a) (hb : '-' ∉ b) (hc : '-' ∉ c) (hd : '-' ∉ d)
    (hdirty : pyStrip d = chars "dirty") (hn : pyInt? b = some n) :
    parseDescribe (a ++ ('-' :: (b ++ ('-' :: (c ++ ('-' :: d)))))) =
      .ok { dirty := some true,
            commit_sha := some (c.dropWhile (· = 'g')),
            distance_to_latest_tag := some n,
            current_version := some (a.dropWhile (· = 'v')) } := by
  have hsplit : pySplit '-' (a ++ ('-' :: (b ++ ('-' :: (c ++ ('-' :: d))))))
      = [a, b, c, d] := by
    rw [pySplit_append_sep _ ha, pySplit_append_sep _ hb,
        pySplit_append_sep _ hc, pySplit_not_mem hd]
  simp [parseDescribe, hsplit, List.getLast?, List.dropLast, hdirty, hn,
    intercalate_singleton]

/-- Evaluation of the describe parser on a three-chunk string whose last
chunk does not strip to the dirty marker. -/
lemma parseDescribe_clean (a b c : List Char) (n : Int)
    (ha : '-' ∉ a) (hb : '-' ∉ b) (hc : '-' ∉ c)
    (hnd : pyStrip c ≠ chars "dirty") (hn : pyInt? b = some n) :
    parseDescribe (a ++ ('-' :: (b ++ ('-' :: c)))) =
      .ok { dirty := none,
            commit_sha := some (c.dropWhile (· = 'g')),
            distance_to_latest_tag := some n,
            current_version := some (a.dropWhile (· = 'v')) } := by
  have hsplit : pySplit '-' (a ++ ('-' :: (b ++ ('-' :: c)))) = [a, b, c] := by
    rw [pySplit_append_sep _ ha, pySplit_append_sep _ hb, pySplit_not_mem hc]
  simp [parseDescribe, hsplit, List.getLast?, List.dropLast, hnd, hn,
    intercalate_singleton]

/-- C1, counterexample.  The claim includes the Subversion-like backend,
but `SVN.is_usable` calls `repo_urls`, whose `svn info` query has no
handler for `OSError`: with the executable absent (errno `ENOENT`) the
call raises instead of returning `False`. -/
theorem C1_counterexample :
    SVN.is_usable (.error (.osError 2)) = .error (.osError 2) ∧
    SVN.is_usable (.error (.osError 2)) ≠ .ok false := by
  exact ⟨rfl, by decide⟩

/-- C1, amended.  The shared probe used by the Git and Mercurial backends
returns usability from the exit code, returns `False` on an `OSError`
with errno `ENOENT`, `EACCES` or `ENOTDIR`, and re-raises any other
`OSError`; the Subversion-like backend's `is_usable` instead propagates
any `OSError` its `svn info` query raises. -/
theorem C1_is_usable_amended :
    (∀ code : Int, BaseVCS.is_usable (.exit code) = .ok (code == 0)) ∧
    (∀ e : Int, (e = ENOENT ∨ e = EACCES ∨ e = ENOTDIR) →
      BaseVCS.is_usable (.osError e) = .ok false) ∧
    (∀ e : Int, ¬(e = ENOENT ∨ e = EACCES ∨ e = ENOTDIR) →
      BaseVCS.is_usable (.osError e) = .error (.osError e)) ∧
    (∀ e : Int, SVN.is_usable (.error (.osError e)) = .error (.osError e)) := by
  refine ⟨fun _ => rfl, fun e h => ?_, fun e h => ?_, fun _ => rfl⟩
  · simp [BaseVCS.is_usable, h]
  · simp [BaseVCS.is_usable, h]

/-- C1, witness: concrete instances of the amended statement. -/
theorem C1_witness :
    BaseVCS.is_usable (.osError 2) = .ok false ∧
    BaseVCS.is_usable (.osError 5) = .error (.osError 5) := by
  exact ⟨C1_is_usable_amended.2.1 2 (by decide),
         C1_is_usable_amended.2.2.1 5 (by decide)⟩

/-- C2: with both required context keys present, `commit` deletes the
transient message file on the success path and on the failure path alike
(the `finally` clause); a `CalledProcessError` from the commit command is
re-raised unchanged, and a successful run raises nothing. -/
theorem C2_commit_always_unlinks :
    ∀ (b : Backend) (osEnv : Env) (tmp msg cv nv : List Char)
      (extra : Option (List (List Char))) (sub : Except PyExc (List Char))
      (rc : Int) (out o : List Char),
    (b.commit osEnv tmp msg ⟨some cv, some nv⟩ extra sub).tempFileDeleted = true ∧
    (b.commit osEnv tmp msg ⟨some cv, some nv⟩ extra
        (.error (.calledProcessError rc out))).raised =
      some (.calledProcessError rc out) ∧
    (b.commit osEnv tmp msg ⟨some cv, some nv⟩ extra (.ok o)).raised = none := by
  intro b osEnv tmp msg cv nv extra sub rc out o
  refine ⟨?_, rfl, rfl⟩
  cases sub with
  | ok _ => rfl
  | error _ => rfl

/-- C7: the latest-tag query returns the empty mapping and raises nothing
when the Git backend's update-index or describe command fails with
`CalledProcessError` (no matching tags), and unconditionally for the
Mercurial and Subversion-like backends. -/
theorem C7_latest_tag_info_empty :
    (∀ (rc : Int) (o : List Char) (d : Except PyExc (List Char)),
      Git.latest_tag_info (.error (.calledProcessError rc o)) d = .ok {}) ∧
    (∀ (u : List Char) (rc : Int) (o : List Char),
      Git.latest_tag_info (.ok u) (.error (.calledProcessError rc o)) = .ok {}) ∧
    Mercurial.latest_tag_info = ({} : TagInfo) ∧
    SVN.latest_tag_info = ({} : TagInfo) := by
  exact ⟨fun _ _ _ => rfl, fun _ _ _ => rfl, rfl, rfl⟩

/-- C9, counterexample.  The claim says `SVN.add_path` splices the path
into the class-level commit command template; in fact the call raises
`UnboundLocalError` and leaves the template exactly as it was, invoking
nothing. -/
theorem C9_counterexample :
    (SVN.add_path SVN._COMMIT_COMMAND (chars "setup.py")).templateAfter =
      SVN._COMMIT_COMMAND ∧
    (SVN.add_path SVN._COMMIT_COMMAND (chars "setup.py")).raised =
      some .unboundLocalError ∧
    (SVN.add_path SVN._COMMIT_COMMAND (chars "setup.py")).invokedCommands = [] := by
  exact ⟨rfl, rfl, rfl⟩

/-- C9, amended: for every template state and path, `SVN.add_path` raises
`UnboundLocalError` (the assignment makes the template name local and the
right-hand side reads it before it is bound), invokes no external staging
command, and leaves the class-level template unchanged. -/
theorem C9_add_path_amended :
    ∀ (template : List (List Char)) (path : List Char),
      SVN.add_path template path =
        { raised := some .unboundLocalError, templateAfter := template,
          invokedCommands := [] } := by
  exact fun _ _ => rfl

/-- C10: with either required context key absent, `commit` raises
`KeyError` for that key, never reaches the subprocess invocation, and
does not delete the transient message file it already created. -/
theorem C10_commit_keyerror_leaks_tempfile :
    ∀ (b : Backend) (osEnv : Env) (tmp msg : List Char)
      (x : Option (List Char)) (cv : List Char)
      (extra : Option (List (List Char))) (sub : Except PyExc (List Char)),
    b.commit osEnv tmp msg ⟨none, x⟩ extra sub =
      { raised := some (.keyError (chars "current_version")),
        tempFileContent := msg, tempFileDeleted := false,
        invoked := none, osEnvAfter := osEnv } ∧
    b.commit osEnv tmp msg ⟨some cv, none⟩ extra sub =
      { raised := some (.keyError (chars "new_version")),
        tempFileContent := msg, tempFileDeleted := false,
        invoked := none, osEnvAfter := osEnv } := by
  exact fun _ _ _ _ _ _ _ _ => ⟨rfl, rfl⟩

lemma filter_strip_empty_iff (out : List Char) :
    ((((pySplitLines out).map pyStrip).filter
        (fun l => !(untrackedMarker.isPrefixOf l))).isEmpty = true) ↔
      ∀ l ∈ pySplitLines out, untrackedMarker.isPrefixOf (pyStrip l) = true := by
  rw [List.isEmpty_iff, List.filter_eq_nil_iff]
  constructor
  · intro hA l hl
    have hm := hA (pyStrip l) (List.mem_map_of_mem pyStrip hl)
    simpa using hm
  · intro hA a ha
    obtain ⟨l, hl, rfl⟩ := List.mem_map.mp ha
    simpa using hA l hl

/-- Shared argument for the Git and Mercurial dirtiness checks: the
filter keeps some line exactly when some reported line does not strip to
an untracked entry. -/
lemma dirty_check_iff (out msgPre : List Char) :
    (∃ d, (if (((pySplitLines out).map pyStrip).filter
          (fun l => !(untrackedMarker.isPrefixOf l))).isEmpty
        then (Except.ok () : Except PyExc Unit)
        else .error (.workingDirectoryIsDirty (msgPre ++ List.intercalate ['\n']
          (((pySplitLines out).map pyStrip).filter
            (fun l => !(untrackedMarker.isPrefixOf l)))))) =
        .error (.workingDirectoryIsDirty d)) ↔
      ∃ l ∈ pySplitLines out, untrackedMarker.isPrefixOf (pyStrip l) = false := by
  by_cases hL : (((pySplitLines out).map pyStrip).filter
      (fun l => !(untrackedMarker.isPrefixOf l))).isEmpty = true
  · rw [if_pos hL]
    constructor
    · rintro ⟨d, hd⟩
      cases hd
    · rintro ⟨l, hl, hfalse⟩
      rw [(filter_strip_empty_iff out).mp hL l hl] at hfalse
      cases hfalse
  · rw [if_neg hL]
    constructor
    · intro _
      have hne : ¬ ∀ l ∈ pySplitLines out,
          untrackedMarker.isPrefixOf (pyStrip l) = true :=
        fun hAll => hL ((filter_strip_empty_iff out).mpr hAll)
      push_neg at hne
      obtain ⟨l, hl, hne2⟩ := hne
      refine ⟨l, hl, ?_⟩
      cases hpf : untrackedMarker.isPrefixOf (pyStrip l) with
      | false => rfl
      | true => exact absurd hpf hne2
    · intro _
      exact ⟨_, rfl⟩

/-- C3: each backend's `assert_nondirty` raises the dirty-working-copy
error exactly when the status query reports a changed entry — for Git and
Mercurial, a status line whose stripped form is not an untracked entry;
for the Subversion-like backend (whose `-q` status lists only changed
paths), any non-empty output. -/
theorem C3_assert_nondirty_iff :
    ∀ (gitOut hgOut svnOut : List Char),
    ((∃ d, Git.assert_nondirty gitOut = .error (.workingDirectoryIsDirty d)) ↔
      ∃ l ∈ pySplitLines gitOut, untrackedMarker.isPrefixOf (pyStrip l) = false) ∧
    ((∃ d, Mercurial.assert_nondirty hgOut = .error (.workingDirectoryIsDirty d)) ↔
      ∃ l ∈ pySplitLines hgOut, untrackedMarker.isPrefixOf (pyStrip l) = false) ∧
    ((∃ d, SVN.assert_nondirty svnOut = .error (.workingDirectoryIsDirty d)) ↔
      svnOut ≠ []) := by
  intro g h s
  refine ⟨dirty_check_iff g (chars "Git working directory is not clean:\n"),
    dirty_check_iff h (chars "Mercurial working directory is not clean:\n"), ?_⟩
  constructor
  · rintro ⟨d, hd⟩ hnil
    subst hnil
    simp [SVN.assert_nondirty] at hd
  · intro hne
    have hE : s.isEmpty = false := by
      cases s with
      | nil => exact absurd rfl hne
      | cons a t => rfl
    refine ⟨chars "SVN working directory is not clean:\n" ++ s, ?_⟩
    unfold SVN.assert_nondirty
    rw [hE]
    rfl

/-- C4: when the describe command outputs `v1.2.3-0-g<sha>-dirty` for a
hexadecimal commit id, `Git.latest_tag_info` returns the mapping with
`dirty = true`, the commit id (its single leading `g` stripped), distance
`0`, and current version `1.2.3`. -/
theorem C4_describe_dirty_parse (sha : List Char)
    (h : sha.all isHexDigitChar = true) :
    Git.latest_tag_info (.ok [])
        (.ok (chars "v1.2.3-0-g" ++ sha ++ chars "-dirty")) =
      .ok { dirty := some true, commit_sha := some sha,
            distance_to_latest_tag := some 0,
            current_version := some (chars "1.2.3") } := by
  have hc : '-' ∉ 'g' :: sha := by
    intro hm
    rcases List.mem_cons.mp hm with h1 | h1
    · exact absurd h1 (by decide)
    · exact hexDigit_not_dash h h1
  have key := parseDescribe_dirty (chars "v1.2.3") (chars "0") ('g' :: sha)
    (chars "dirty") 0 (by decide) (by decide) hc (by decide) (by decide) (by decide)
  have hg : ('g' :: sha).dropWhile (· = 'g') = sha := by
    rw [List.dropWhile_cons]
    simp [dropWhile_g_of_hex h]
  have hv : (chars "v1.2.3").dropWhile (· = 'v') = chars "1.2.3" := by decide
  rw [hg, hv] at key
  show parseDescribe (chars "v1.2.3" ++
    ('-' :: (chars "0" ++ ('-' :: (('g' :: sha) ++ ('-' :: chars "dirty")))))) = _
  exact key

/-- C4, witness: the theorem at a concrete hexadecimal commit id. -/
theorem C4_witness :
    (chars "deadbeef").all isHexDigitChar = true ∧
    Git.latest_tag_info (.ok [])
        (.ok (chars "v1.2.3-0-g" ++ chars "deadbeef" ++ chars "-dirty")) =
      .ok { dirty := some true, commit_sha := some (chars "deadbeef"),
            distance_to_latest_tag := some 0,
            current_version := some (chars "1.2.3") } := by
  exact ⟨by decide, C4_describe_dirty_parse (chars "deadbeef") (by decide)⟩

/-- C5, counterexample.  The claim promises the round trip for every
version string with no dash, but the parser strips every leading `v` of
the rejoined tag: the version string `v1` (which contains no dash) comes
back as `1`. -/
theorem C5_counterexample :
    ('-' ∉ chars "v1") ∧
    Git.latest_tag_info (.ok [])
        (.ok (chars "v" ++ chars "v1" ++ chars "-0-gabc123")) =
      .ok { dirty := none, commit_sha := some (chars "abc123"),
            distance_to_latest_tag := some 0,
            current_version := some (chars "1") } ∧
    some (chars "1") ≠ some (chars "v1") := by
  exact ⟨by decide, by decide, by decide⟩

/-- C5, amended: for every version string `v` that contains no dash and
does not itself start with `v`, formatting the tag `v + v` into a
describe string (here with distance `0` and commit id `abc123`) and
parsing it back recovers `current_version = v`. -/
theorem C5_roundtrip_amended (v : List Char)
    (hdash : '-' ∉ v) (hv : v.head? ≠ some 'v') :
    Git.latest_tag_info (.ok [])
        (.ok ((chars "v" ++ v) ++ chars "-0-gabc123")) =
      .ok { dirty := none, commit_sha := some (chars "abc123"),
            distance_to_latest_tag := some 0,
            current_version := some v } := by
  have ha : '-' ∉ chars "v" ++ v := by
    intro hm
    rcases List.mem_append.mp hm with h1 | h1
    · exact absurd h1 (by decide)
    · exact hdash h1
  have key := parseDescribe_clean (chars "v" ++ v) (chars "0")
    ('g' :: chars "abc123") 0 ha (by decide) (by decide) (by decide) (by decide)
  have hg : ('g' :: chars "abc123").dropWhile (· = 'g') = chars "abc123" := by decide
  have hvv : (chars "v" ++ v).dropWhile (· = 'v') = v := by
    show (('v' :: v).dropWhile (· = 'v')) = v
    rw [List.dropWhile_cons]
    simp only [decide_True, if_true, decide_eq_true_eq]
    exact dropWhile_of_head_not (fun c hc => by
      have hne : c ≠ 'v' := fun he => hv (by rw [hc, he])
      simp [hne])
  rw [hg, hvv] at key
  show parseDescribe ((chars "v" ++ v) ++
    ('-' :: (chars "0" ++ ('-' :: ('g' :: chars "abc123"))))) = _
  exact key

/-- C6, counterexample.  The claim says the derivation locates the
rightmost occurrence of any of the layout markers; the code instead takes
the markers in the fixed order branch, branches, trunk, and keeps the
first one that occurs at all.  In `a/branch/c/trunk` the rightmost marker
occurrence is `trunk`, yet the code truncates at `branch`. -/
theorem C6_counterexample :
    (repoUrlsFromUrl (some (chars "a/branch/c/trunk"))).root =
      some (chars "a/branch") ∧
    (specRightmostMarker (chars "a/branch/c/trunk")).map
        (fun p => (chars "a/branch/c/trunk").take (p.1 + p.2)) =
      some (chars "a/branch/c/trunk") ∧
    some (chars "a/branch") ≠ some (chars "a/branch/c/trunk") := by
  exact ⟨by decide, by decide, by decide⟩

/-- C6, amended: the derivation tries the markers branch, branches, trunk
in that fixed order and truncates at the rightmost occurrence of the
first marker that occurs anywhere in the URL; on the spec's example URL
this gives the stated root and base; with no marker in the URL both stay
`None` and `is_usable` reports false. -/
theorem C6_repo_urls_amended :
    (repoUrlsFromUrl (some (chars "svn://h/project/trunk/sub")) =
      ⟨some (chars "svn://h/project"), some (chars "svn://h/project/trunk"),
       some (chars "svn://h/project/trunk/sub")⟩) ∧
    (repoUrlsFromUrl (some (chars "a/branch/c/trunk")) =
      ⟨some (chars "a"), some (chars "a/branch"),
       some (chars "a/branch/c/trunk")⟩) ∧
    (SVN.is_usable (.ok (chars "URL: svn://h/p/s")) = .ok false) ∧
    (∀ url : List Char, (∀ m ∈ svnLayoutFolders, pyRindex? url m = none) →
      repoUrlsFromUrl (some url) = ⟨none, none, some url⟩ ∧
      pyTruthy (repoUrlsFromUrl (some url)).base = false) := by
  refine ⟨by decide, by decide, by decide, fun url h => ?_⟩
  have e1 := h (chars "branch") (by decide)
  have e2 := h (chars "branches") (by decide)
  have e3 := h (chars "trunk") (by decide)
  have hfold : repoUrlsFromUrl (some url) = ⟨none, none, some url⟩ := by
    simp [repoUrlsFromUrl, svnLayoutFolders, List.findSome?, e1, e2, e3]
  exact ⟨hfold, by rw [hfold]; rfl⟩

/-- C6, witness: the no-marker branch of the amended statement at a
concrete URL. -/
theorem C6_witness :
    repoUrlsFromUrl (some (chars "x")) = ⟨none, none, some (chars "x")⟩ ∧
    pyTruthy (repoUrlsFromUrl (some (chars "x"))).base = false := by
  exact C6_repo_urls_amended.2.2.2 (chars "x") (by decide)

/-- C8, counterexample.  The claim says the forced UTF-8 encoding
variable is added for exactly one backend (the Mercurial-like one), but
`HGENCODING` is set in the shared `BaseVCS.commit`, so the Git backend's
commit subprocess environment defines it too. -/
theorem C8_counterexample :
    (Backend.commit .git emptyEnv (chars "/tmp/t") (chars "m")
        ⟨some (chars "1.0"), some (chars "1.1")⟩ none (.ok [])).invoked.map
      (fun p => p.2 (chars "HGENCODING")) = some (some (chars "utf-8")) ∧
    Backend.git ≠ Backend.mercurial := by
  exact ⟨by decide, by decide⟩

/-- C8, amended: for every backend, the commit subprocess environment
defines `BUMPVERSION_CURRENT_VERSION` and `BUMPVERSION_NEW_VERSION` from
the context and `HGENCODING` as utf-8 (the latter for all three backends,
being set in the shared base implementation), agrees with the caller's
environment on every other key, and the caller's environment itself is
left unchanged. -/
theorem C8_commit_env_amended :
    ∀ (b : Backend) (osEnv : Env) (tmp msg cv nv : List Char)
      (extra : Option (List (List Char))) (sub : Except PyExc (List Char)),
    ∃ env : Env,
      (b.commit osEnv tmp msg ⟨some cv, some nv⟩ extra sub).invoked =
        some (b.commitCommandOf ++ [tmp] ++ extra.getD [], env) ∧
      env (chars "BUMPVERSION_CURRENT_VERSION") = some cv ∧
      env (chars "BUMPVERSION_NEW_VERSION") = some nv ∧
      env (chars "HGENCODING") = some (chars "utf-8") ∧
      (∀ k : List Char, k ≠ chars "BUMPVERSION_CURRENT_VERSION" →
        k ≠ chars "BUMPVERSION_NEW_VERSION" → k ≠ chars "HGENCODING" →
        env k = osEnv k) ∧
      (b.commit osEnv tmp msg ⟨some cv, some nv⟩ extra sub).osEnvAfter = osEnv := by
  intro b osEnv tmp msg cv nv extra sub
  have h1 : bumpEnvKey (chars "current_version") =
      chars "BUMPVERSION_CURRENT_VERSION" := by decide
  have h2 : bumpEnvKey (chars "new_version") =
      chars "BUMPVERSION_NEW_VERSION" := by decide
  refine ⟨setEnv (setEnv (setEnv osEnv (chars "HGENCODING") (chars "utf-8"))
      (bumpEnvKey (chars "current_version")) cv)
      (bumpEnvKey (chars "new_version")) nv, ?_, ?_, ?_, ?_, ?_, ?_⟩
  · cases sub with
    | ok _ => rfl
    | error _ => rfl
  · rw [h1, h2]
    simp only [setEnv]
    rw [if_neg (by decide)]
    simp
  · rw [h2]
    simp only [setEnv]
    simp
  · rw [h1, h2]
    simp only [setEnv]
    rw [if_neg (by decide), if_neg (by decide)]
    simp
  · intro k k1 k2 k3
    rw [h1, h2]
    simp only [setEnv]
    rw [if_neg k2, if_neg k1, if_neg k3]
  · cases sub with
    | ok _ => rfl
    | error _ => rfl

/-- C8, witness: the amended statement instantiated for the Git backend
on the empty caller environment, with the frame conjunct applied to the
key PATH. -/
theorem C8_witness :
    ∃ env : Env,
      (Backend.commit .git emptyEnv (chars "t") (chars "m")
          ⟨some (chars "1"), some (chars "2")⟩ none (.ok [])).invoked =
        some (Backend.commitCommandOf .git ++ [chars "t"] ++ [], env) ∧
      env (chars "BUMPVERSION_CURRENT_VERSION") = some (chars "1") ∧
      env (chars "BUMPVERSION_NEW_VERSION") = some (chars "2") ∧
      env (chars "HGENCODING") = some (chars "utf-8") ∧
      env (chars "PATH") = emptyEnv (chars "PATH") ∧
      (Backend.commit .git emptyEnv (chars "t") (chars "m")
          ⟨some (chars "1"), some (chars "2")⟩ none (.ok [])).osEnvAfter =
        emptyEnv := by
  obtain ⟨env, ha, hb, hc, hd, he, hf⟩ :=
    C8_commit_env_amended .git emptyEnv (chars "t") (chars "m")
      (chars "1") (chars "2") none (.ok [])
  exact ⟨env, ha, hb, hc, hd,
    he (chars "PATH") (by decide) (by decide) (by decide), hf⟩

/-- C5, witness: the amended round trip at the concrete version `1.2`. -/
theorem C5_witness :
    Git.latest_tag_info (.ok [])
        (.ok ((chars "v" ++ chars "1.2") ++ chars "-0-gabc123")) =
      .ok { dirty := none, commit_sha := some (chars "abc123"),
            distance_to_latest_tag := some 0,
            current_version := some (chars "1.2") } := by
  exact C5_roundtrip_amended (chars "1.2") (by decide) (by decide)

example :
    repoUrlsFromUrl (some (chars "svn://h/project/trunk/sub")) =
    ⟨some (chars "svn://h/project"), some (chars "svn://h/project/trunk"),
     some (chars "svn://h/project/trunk/sub")⟩ := by decide

example :
    repoUrlsFromUrl (some (chars "a/branch/c/trunk")) =
    ⟨some (chars "a"), some (chars "a/branch"),
     some (chars "a/branch/c/trunk")⟩ := by decide

example :
    specRightmostMarker (chars "a/branch/c/trunk") = some (11, 5) := by decide

example :
    SVN.is_usable (.ok (chars "Path: .\nURL: svn://h/p/trunk/s\n")) =
      .ok true := by decide

example :
    SVN.is_usable (.ok (chars "Path: .\nURL: svn://h/p/s\n")) =
      .ok false := by decide
